import Mathlib

/-
Verification of the payment-settlement core of the Kelly OS repository.

The definitions below are a shallow embedding of the TypeScript source:
  - src/lib/services/accounting-engine.ts  (double-entry ledger)
  - src/lib/services/payment-processor.ts  (settlement orchestrator)
Monetary amounts (Prisma Decimal / JS number) are modelled as rationals,
timestamps as integers (milliseconds), and the database as lists of rows.
Prisma calls are modelled as list operations: findFirst / findUnique as
List.find?, findMany with a where clause as List.filter, orderBy createdAt
asc as a stable ascending sort, create as an append, update-by-id as a map.
-/

namespace KellyOS

-- ============================================================================
-- Enumerations (from the Prisma client enums used by the source)
-- ============================================================================

inductive InvoiceStatus
  | UNPAID
  | PARTIALLY_PAID
  | PAID
  | CANCELLED
deriving DecidableEq

inductive PaymentStatus
  | PENDING
  | COMPLETED
  | FAILED
deriving DecidableEq

inductive PaymentType
  | INVOICE
  | ACCOUNT
deriving DecidableEq

inductive EntryType
  | DEBIT
  | CREDIT
deriving DecidableEq

inductive AccountType
  | ASSET
  | LIABILITY
  | EQUITY
  | REVENUE
  | EXPENSE
deriving DecidableEq

inductive POSStatus
  | PENDING
  | PAID
  | CANCELLED
deriving DecidableEq

-- ============================================================================
-- Data model (rows of the persisted tables)
-- ============================================================================

structure Customer where
  id : String
  customerId : String
  balance : ℚ
deriving DecidableEq

structure Invoice where
  id : String
  invoiceId : String
  customerId : String
  amount : ℚ
  amountPaid : ℚ
  balance : ℚ
  status : InvoiceStatus
  createdAt : ℤ
  posId : Option String
deriving DecidableEq

structure Payment where
  id : String
  mpesaReceiptNumber : String
  transactionId : String
  customerId : String
  amount : ℚ
  phone : String
  accountReference : String
  paymentType : PaymentType
  status : PaymentStatus
  transactionDate : ℤ
deriving DecidableEq

structure PaymentInvoice where
  paymentId : String
  invoiceId : String
  amountApplied : ℚ
deriving DecidableEq

structure LedgerEntry where
  accountCode : String
  accountName : String
  accountType : AccountType
  entryType : EntryType
  amount : ℚ
  description : String
deriving DecidableEq

structure LedgerRow where
  accountCode : String
  accountName : String
  accountType : AccountType
  entryType : EntryType
  amount : ℚ
  transactionRef : String
  description : String
  transactionDate : ℤ
  paymentId : Option String
  invoiceId : Option String
  customerId : Option String
deriving DecidableEq

structure POSSale where
  id : String
  posId : String
  status : POSStatus
  invoiceId : Option String
deriving DecidableEq

structure DB where
  customers : List Customer
  invoices : List Invoice
  payments : List Payment
  paymentInvoices : List PaymentInvoice
  ledger : List LedgerRow
  posSales : List POSSale
deriving DecidableEq

-- ============================================================================
-- Accounting engine (accounting-engine.ts)
-- ============================================================================

structure AccountInfo where
  code : String
  name : String
  type : AccountType

def MPESA_CASH : AccountInfo := ⟨"1010", "M-Pesa Cash", AccountType.ASSET⟩

def ACCOUNTS_RECEIVABLE : AccountInfo := ⟨"1200", "Accounts Receivable", AccountType.ASSET⟩

def SALES_REVENUE : AccountInfo := ⟨"4000", "Sales Revenue", AccountType.REVENUE⟩

/-- Sum of the amounts of the DEBIT entries, as computed in postTransaction. -/
def totalDebits (entries : List LedgerEntry) : ℚ :=
  ((entries.filter (fun e => decide (e.entryType = EntryType.DEBIT))).map (fun e => e.amount)).sum

/-- Sum of the amounts of the CREDIT entries, as computed in postTransaction. -/
def totalCredits (entries : List LedgerEntry) : ℚ :=
  ((entries.filter (fun e => decide (e.entryType = EntryType.CREDIT))).map (fun e => e.amount)).sum

/-- The ledger row created for one entry of a posted transaction. -/
def toLedgerRow (transactionRef : String) (transactionDate : ℤ)
    (paymentId invoiceId customerId : Option String) (e : LedgerEntry) : LedgerRow :=
  { accountCode := e.accountCode
    accountName := e.accountName
    accountType := e.accountType
    entryType := e.entryType
    amount := e.amount
    transactionRef := transactionRef
    description := e.description
    transactionDate := transactionDate
    paymentId := paymentId
    invoiceId := invoiceId
    customerId := customerId }

/-- AccountingEngine.postTransaction: rejects the batch when the debit and
credit totals differ by more than 0.01, otherwise appends one row per entry
under the shared transaction reference.  The source performs no other check
before writing (in particular it does not require the entries list to be
non-empty). -/
def postTransaction (ledger : List LedgerRow) (transactionRef : String)
    (transactionDate : ℤ) (entries : List LedgerEntry)
    (paymentId invoiceId customerId : Option String) : Except String (List LedgerRow) :=
  if |totalDebits entries - totalCredits entries| > 1/100 then
    Except.error "Transaction out of balance"
  else
    Except.ok (ledger ++ entries.map (toLedgerRow transactionRef transactionDate paymentId invoiceId customerId))

/-- AccountingEngine.postPaymentReceived: DEBIT the M-Pesa cash account and
CREDIT accounts receivable, both for the payment amount, linked to the
customer, the payment and the first allocated invoice if any. -/
def postPaymentReceived (ledger : List LedgerRow) (transactionRef : String)
    (amount : ℚ) (customerId paymentId : String) (invoiceIds : List String)
    (transactionDate : ℤ) (description : String) : Except String (List LedgerRow) :=
  postTransaction ledger transactionRef transactionDate
    [ { accountCode := MPESA_CASH.code, accountName := MPESA_CASH.name,
        accountType := MPESA_CASH.type, entryType := EntryType.DEBIT,
        amount := amount, description := "M-Pesa payment: " ++ description },
      { accountCode := ACCOUNTS_RECEIVABLE.code, accountName := ACCOUNTS_RECEIVABLE.name,
        accountType := ACCOUNTS_RECEIVABLE.type, entryType := EntryType.CREDIT,
        amount := amount, description := "Payment applied: " ++ description } ]
    (some paymentId) invoiceIds.head? (some customerId)

/-- AccountingEngine.postInvoiceCreated: DEBIT accounts receivable and CREDIT
sales revenue, both for the invoice amount, linked to the customer and the
invoice. -/
def postInvoiceCreated (ledger : List LedgerRow) (transactionRef : String)
    (amount : ℚ) (customerId invoiceId : String)
    (transactionDate : ℤ) (description : String) : Except String (List LedgerRow) :=
  postTransaction ledger transactionRef transactionDate
    [ { accountCode := ACCOUNTS_RECEIVABLE.code, accountName := ACCOUNTS_RECEIVABLE.name,
        accountType := ACCOUNTS_RECEIVABLE.type, entryType := EntryType.DEBIT,
        amount := amount, description := "Invoice raised: " ++ description },
      { accountCode := SALES_REVENUE.code, accountName := SALES_REVENUE.name,
        accountType := SALES_REVENUE.type, entryType := EntryType.CREDIT,
        amount := amount, description := "Sales revenue: " ++ description } ]
    none (some invoiceId) (some customerId)

/-- The flipped entry built by reverseTransaction from one original row:
DEBIT and CREDIT are swapped and the description is replaced by a text that
starts with the REVERSAL marker and names the original reference. -/
def reversalEntryOf (reason originalRef : String) (e : LedgerRow) : LedgerEntry :=
  { accountCode := e.accountCode
    accountName := e.accountName
    accountType := e.accountType
    entryType := if e.entryType = EntryType.DEBIT then EntryType.CREDIT else EntryType.DEBIT
    amount := e.amount
    description := "REVERSAL: " ++ reason ++ " (Original: " ++ originalRef ++ ")" }

/-- The ledger row a successful reversal writes for one original row. -/
def reversalRow (newRef : String) (date : ℤ) (reason originalRef : String)
    (paymentId invoiceId customerId : Option String) (e : LedgerRow) : LedgerRow :=
  toLedgerRow newRef date paymentId invoiceId customerId (reversalEntryOf reason originalRef e)

/-- AccountingEngine.reverseTransaction: reads all rows under the original
reference, fails when there are none, and otherwise posts the side-flipped
entries under the new reference (traceability links copied from the first
original row). -/
def reverseTransaction (ledger : List LedgerRow) (originalTransactionRef reversalTransactionRef : String)
    (reversalDate : ℤ) (reason : String) : Except String (List LedgerRow) :=
  match ledger.filter (fun e => e.transactionRef == originalTransactionRef) with
  | [] => Except.error ("Transaction not found: " ++ originalTransactionRef)
  | e0 :: rest =>
      postTransaction ledger reversalTransactionRef reversalDate
        ((e0 :: rest).map (reversalEntryOf reason originalTransactionRef))
        e0.paymentId e0.invoiceId e0.customerId

/-- Debit total over stored ledger rows. -/
def rowDebits (l : List LedgerRow) : ℚ :=
  ((l.filter (fun e => decide (e.entryType = EntryType.DEBIT))).map (fun e => e.amount)).sum

/-- Credit total over stored ledger rows. -/
def rowCredits (l : List LedgerRow) : ℚ :=
  ((l.filter (fun e => decide (e.entryType = EntryType.CREDIT))).map (fun e => e.amount)).sum

/-- AccountingEngine.getCustomerBalance: debits minus credits over the
accounts-receivable rows tagged with the customer. -/
def getCustomerBalance (ledger : List LedgerRow) (customerId : String) : ℚ :=
  let entries := ledger.filter
    (fun e => e.accountCode == ACCOUNTS_RECEIVABLE.code && e.customerId == some customerId)
  rowDebits entries - rowCredits entries

-- ============================================================================
-- Payment processor (payment-processor.ts)
-- ============================================================================

structure SettleParams where
  mpesaReceiptNumber : String
  transactionId : String
  accountReference : String
  amount : ℚ
  phone : String
  transactionDate : ℤ
deriving DecidableEq

structure PaymentResult where
  id : String
  customerId : String
  amount : ℚ
  invoicesCleared : List String
  remainingBalance : ℚ
deriving DecidableEq

structure PaymentTarget where
  customer : Option Customer
  invoice : Option Invoice
  paymentType : PaymentType
deriving DecidableEq

/-- identifyPaymentTarget: look for an invoice whose human-readable code or
internal id equals the account reference; on a match return it (with its
owning customer fetched by the relation include) and kind INVOICE.  Otherwise
look for a customer by external code or internal id and return it with no
invoice and kind ACCOUNT.  Otherwise fail. -/
def invoiceMatches (r : String) (i : Invoice) : Bool :=
  i.invoiceId == r || i.id == r

def customerMatches (r : String) (c : Customer) : Bool :=
  c.customerId == r || c.id == r

def identifyPaymentTarget (db : DB) (accountReference : String) : Except String PaymentTarget :=
  match db.invoices.find? (invoiceMatches accountReference) with
  | some invoice =>
      Except.ok { customer := db.customers.find? (fun c => c.id == invoice.customerId)
                  invoice := some invoice
                  paymentType := PaymentType.INVOICE }
  | none =>
      match db.customers.find? (customerMatches accountReference) with
      | some customer =>
          Except.ok { customer := some customer, invoice := none, paymentType := PaymentType.ACCOUNT }
      | none => Except.error ("Invalid account reference: " ++ accountReference)

/-- validatePayment: reject an amount above 250000; then sum the COMPLETED
payments of the customer whose transactionDate is greater than or equal to the
start of the current day (the Prisma filter is gte only, with no upper bound)
and reject when that sum plus the new amount exceeds 500000. -/
def validatePayment (payments : List Payment) (customerId : String) (amount : ℚ)
    (startOfToday : ℤ) : Except String Unit :=
  if amount > 250000 then Except.error "Payment amount exceeds maximum"
  else
    let dailyTotal :=
      ((payments.filter (fun q =>
          q.customerId == customerId
            && decide (startOfToday ≤ q.transactionDate)
            && decide (q.status = PaymentStatus.COMPLETED))).map (fun q => q.amount)).sum + amount
    if dailyTotal > 500000 then Except.error "Daily limit exceeded"
    else Except.ok ()

/-- The where clause of the invoice fetch in allocatePayment: invoices of the
customer in status UNPAID or PARTIALLY_PAID, additionally filtered by id when
targetInvoiceId is a truthy string (the source spreads the id condition with
the and-operator, so an empty string behaves like no target). -/
def allocCandidate (customerId : String) (targetInvoiceId : Option String) (i : Invoice) : Bool :=
  i.customerId == customerId
    && (decide (i.status = InvoiceStatus.UNPAID) || decide (i.status = InvoiceStatus.PARTIALLY_PAID))
    && (match targetInvoiceId with
        | some t => if t = "" then true else i.id == t
        | none => true)

/-- The orderBy createdAt asc of the invoice fetch, modelled as a stable
ascending insertion sort. -/
def sortInvoices (l : List Invoice) : List Invoice :=
  l.insertionSort (fun a b => a.createdAt ≤ b.createdAt)

/-- The allocation loop of allocatePayment: walk the fetched invoices, break
when the remaining amount is not positive, otherwise apply the minimum of the
remaining amount and the invoice balance, create the payment-invoice link,
and update amountPaid, balance and status of the invoice.  Returns the
created links and the updated versions of the processed invoices (invoices
after the break point are returned unchanged). -/
def allocLoop (paymentId : String) : ℚ → List Invoice → List PaymentInvoice × List Invoice
  | _, [] => ([], [])
  | remaining, invoice :: rest =>
    if remaining ≤ 0 then ([], invoice :: rest)
    else
      let invoiceBalance := invoice.balance
      let amountToApply := min remaining invoiceBalance
      let newAmountPaid := invoice.amountPaid + amountToApply
      let newBalance := invoice.amount - newAmountPaid
      let newStatus :=
        if newBalance ≤ 1/100 then InvoiceStatus.PAID
        else if newAmountPaid > 0 then InvoiceStatus.PARTIALLY_PAID
        else invoice.status
      let updated := { invoice with amountPaid := newAmountPaid, balance := newBalance, status := newStatus }
      let next := allocLoop paymentId (remaining - amountToApply) rest
      (⟨paymentId, invoice.id, amountToApply⟩ :: next.1, updated :: next.2)

/-- allocatePayment: fetch the candidate invoices (filter plus ascending
creation-time order) and run the allocation loop over them.  Any amount left
over is not an error; the caller folds it into the customer balance. -/
def allocatePayment (invoiceTable : List Invoice) (paymentId customerId : String)
    (amount : ℚ) (targetInvoiceId : Option String) : List PaymentInvoice × List Invoice :=
  allocLoop paymentId amount (sortInvoices (invoiceTable.filter (allocCandidate customerId targetInvoiceId)))

/-- The per-row update each tx.invoice.update of the loop performs, lifted to
the invoice table: a row is replaced by its updated version when the loop
processed it. -/
def applyInvoiceUpdates (table updated : List Invoice) : List Invoice :=
  table.map (fun i => ((updated.find? (fun u => u.id == i.id)).getD i))

/-- updatePOSSales: for each allocation, re-read the (updated) invoice; when
it is linked to a POS sale that is still PENDING and the invoice is now PAID,
mark the sale PAID and link it to the invoice. -/
def updatePOSSales (invoices : List Invoice) (posSales : List POSSale)
    (allocations : List PaymentInvoice) : List POSSale :=
  allocations.foldl (fun sales alloc =>
    match invoices.find? (fun i => i.id == alloc.invoiceId) with
    | none => sales
    | some invoice =>
        match invoice.posId with
        | none => sales
        | some pid =>
            sales.map (fun s =>
              if s.posId == pid && decide (s.status = POSStatus.PENDING)
                  && decide (invoice.status = InvoiceStatus.PAID)
              then { s with status := POSStatus.PAID, invoiceId := some invoice.id }
              else s)) posSales

/-- The steps of the atomic unit of processPayment at which an external
storage failure can be injected, to model an aborted unit of work. -/
inductive Step
  | createPayment
  | alloc
  | custBalance
  | ledgerPost
  | markCompleted
  | posUpdate
deriving DecidableEq

inductive Outcome
  | ok (r : PaymentResult)
  | err (msg : String)
deriving DecidableEq

def outcomeOk : Outcome → Bool
  | Outcome.ok _ => true
  | Outcome.err _ => false

def exceptOk {α : Type} : Except String α → Bool
  | Except.ok _ => true
  | Except.error _ => false

/-- processPayment: idempotency check, target resolution, rule validation,
then the interactive Prisma transaction of steps 4a to 4f.  Writes made
through the transaction client (payment creation, allocation records, invoice
and customer updates, status change, POS updates) are provisional and are
discarded when the unit aborts; the ledger posting of step 4d calls
AccountingEngine.postPaymentReceived WITHOUT the tx argument, so in the
source those rows are written through the global client in a transaction of
their own and survive an abort of the surrounding unit.  The fault argument
injects a storage failure at one step (none means no failure); newPaymentId
and transactionRef stand for the generated payment id and the generated
PAY transaction reference. -/
def processPayment (db : DB) (startOfToday : ℤ) (newPaymentId transactionRef : String)
    (fault : Option Step) (p : SettleParams) : Outcome × DB :=
  match db.payments.find? (fun q => q.mpesaReceiptNumber == p.mpesaReceiptNumber) with
  | some existing =>
      (Outcome.ok { id := existing.id, customerId := existing.customerId,
                    amount := existing.amount, invoicesCleared := [], remainingBalance := 0 }, db)
  | none =>
    match identifyPaymentTarget db p.accountReference with
    | Except.error e => (Outcome.err e, db)
    | Except.ok target =>
      match target.customer with
      | none => (Outcome.err ("Customer not found for account reference: " ++ p.accountReference), db)
      | some customer =>
        match validatePayment db.payments customer.id p.amount startOfToday with
        | Except.error e => (Outcome.err e, db)
        | Except.ok _ =>
          if fault = some Step.createPayment then (Outcome.err "storage failure", db)
          else
            let payment : Payment :=
              { id := newPaymentId
                mpesaReceiptNumber := p.mpesaReceiptNumber
                transactionId := p.transactionId
                customerId := customer.id
                amount := p.amount
                phone := p.phone
                accountReference := p.accountReference
                paymentType := target.paymentType
                status := PaymentStatus.PENDING
                transactionDate := p.transactionDate }
            let txPayments := db.payments ++ [payment]
            if fault = some Step.alloc then (Outcome.err "storage failure", db)
            else
              let alloc := allocatePayment db.invoices newPaymentId customer.id p.amount
                (target.invoice.map (fun i => i.id))
              let allocations := alloc.1
              let txInvoices := applyInvoiceUpdates db.invoices alloc.2
              let txPaymentInvoices := db.paymentInvoices ++ allocations
              if fault = some Step.custBalance then (Outcome.err "storage failure", db)
              else
                let newBalance := customer.balance - p.amount
                let txCustomers := db.customers.map
                  (fun c => if c.id = customer.id then { c with balance := newBalance } else c)
                match postPaymentReceived db.ledger transactionRef p.amount customer.id
                    newPaymentId (allocations.map (fun a => a.invoiceId)) p.transactionDate
                    ("M-Pesa " ++ p.mpesaReceiptNumber) with
                | Except.error e => (Outcome.err e, db)
                | Except.ok newLedger =>
                  if fault = some Step.ledgerPost then (Outcome.err "storage failure", db)
                  else if fault = some Step.markCompleted then
                    (Outcome.err "storage failure", { db with ledger := newLedger })
                  else
                    let txPayments2 := txPayments.map
                      (fun q => if q.id = newPaymentId then { q with status := PaymentStatus.COMPLETED } else q)
                    if fault = some Step.posUpdate then
                      (Outcome.err "storage failure", { db with ledger := newLedger })
                    else
                      let txPosSales := updatePOSSales txInvoices db.posSales allocations
                      (Outcome.ok { id := newPaymentId
                                    customerId := customer.id
                                    amount := p.amount
                                    invoicesCleared := allocations.map (fun a => a.invoiceId)
                                    remainingBalance := newBalance },
                       { customers := txCustomers
                         invoices := txInvoices
                         payments := txPayments2
                         paymentInvoices := txPaymentInvoices
                         ledger := newLedger
                         posSales := txPosSales })

-- ============================================================================
-- Spec-side definitions (written from the words of the spec, for comparison)
-- ============================================================================

/-- Candidate set in the words of the spec: the customer's open (UNPAID or
PARTIALLY_PAID) invoices, restricted to the single target invoice when a
target id is supplied. -/
def specCandidate (customerId : String) (targetInvoiceId : Option String) (i : Invoice) : Bool :=
  i.customerId == customerId
    && (decide (i.status = InvoiceStatus.UNPAID) || decide (i.status = InvoiceStatus.PARTIALLY_PAID))
    && (match targetInvoiceId with
        | some t => i.id == t
        | none => true)

/-- Allocation loop in the words of the spec: walk the invoices in order,
stop when the remaining amount reaches 0 or the invoices are exhausted; for
each invoice apply the minimum of the remaining amount and the invoice
balance, decrement the balance by the applied amount, set the status to PAID
when the resulting balance is at most 0.01 and otherwise to PARTIALLY_PAID
when any amount has been applied, and decrement the remaining amount. -/
def specAllocLoop (paymentId : String) : ℚ → List Invoice → List PaymentInvoice × List Invoice
  | _, [] => ([], [])
  | remaining, invoice :: rest =>
    if remaining = 0 then ([], invoice :: rest)
    else
      let applied := min remaining invoice.balance
      let newPaid := invoice.amountPaid + applied
      let newBal := invoice.balance - applied
      let newStatus :=
        if newBal ≤ 1/100 then InvoiceStatus.PAID
        else if applied > 0 then InvoiceStatus.PARTIALLY_PAID
        else invoice.status
      let updated := { invoice with amountPaid := newPaid, balance := newBal, status := newStatus }
      let next := specAllocLoop paymentId (remaining - applied) rest
      (⟨paymentId, invoice.id, applied⟩ :: next.1, updated :: next.2)

/-- Allocation in the words of the spec: candidates in ascending
creation-time order, then the spec loop. -/
def specAllocate (invoiceTable : List Invoice) (paymentId customerId : String)
    (amount : ℚ) (targetInvoiceId : Option String) : List PaymentInvoice × List Invoice :=
  specAllocLoop paymentId amount (sortInvoices (invoiceTable.filter (specCandidate customerId targetInvoiceId)))

/-- Milliseconds in one day, the JS day granularity. -/
def MS_PER_DAY : ℤ := 86400000

/-- Limit violation in the words of the claim: the amount exceeds 250000, or
the amount plus the COMPLETED payments of the customer timestamped within
the current calendar day (at or after its start and before the next day)
exceeds 500000. -/
def specLimitViolation (payments : List Payment) (customerId : String) (amount : ℚ)
    (startOfToday : ℤ) : Prop :=
  amount > 250000 ∨
    ((payments.filter (fun q =>
        q.customerId == customerId
          && decide (startOfToday ≤ q.transactionDate)
          && decide (q.transactionDate < startOfToday + MS_PER_DAY)
          && decide (q.status = PaymentStatus.COMPLETED))).map (fun q => q.amount)).sum
      + amount > 500000

/-- Limit violation as the code computes it (amended wording): the window on
completed payments is bounded below by the start of the current day only. -/
def gteLimitViolation (payments : List Payment) (customerId : String) (amount : ℚ)
    (startOfToday : ℤ) : Prop :=
  amount > 250000 ∨
    ((payments.filter (fun q =>
        q.customerId == customerId
          && decide (startOfToday ≤ q.transactionDate)
          && decide (q.status = PaymentStatus.COMPLETED))).map (fun q => q.amount)).sum
      + amount > 500000

instance (payments : List Payment) (customerId : String) (amount : ℚ) (startOfToday : ℤ) :
    Decidable (specLimitViolation payments customerId amount startOfToday) := by
  unfold specLimitViolation; infer_instance

instance (payments : List Payment) (customerId : String) (amount : ℚ) (startOfToday : ℤ) :
    Decidable (gteLimitViolation payments customerId amount startOfToday) := by
  unfold gteLimitViolation; infer_instance

/-- Arithmetic consistency of one invoice row: non-negative amountPaid and
balance, and the stored balance is the face value minus amountPaid. -/
def invoiceConsistent (i : Invoice) : Prop :=
  0 ≤ i.amountPaid ∧ 0 ≤ i.balance ∧ i.amountPaid + i.balance = i.amount

/-- Well-formedness of an invoice row used by the allocation refinement: it
is arithmetically consistent and an UNPAID invoice has nothing paid yet. -/
def allocReady (i : Invoice) : Prop :=
  invoiceConsistent i ∧ (i.status = InvoiceStatus.UNPAID → i.amountPaid = 0)

-- ============================================================================
-- Concrete fixtures used by witnesses and counterexamples
-- ============================================================================

/-- A customer with no history, used by several concrete runs. -/
def exCustomer : Customer := { id := "c1", customerId := "CUST1", balance := 0 }

/-- A database holding only exCustomer. -/
def exDB : DB :=
  { customers := [exCustomer], invoices := [], payments := [], paymentInvoices := [],
    ledger := [], posSales := [] }

/-- Settle parameters against the customer account, parametrised by amount. -/
def exParams (amount : ℚ) : SettleParams :=
  { mpesaReceiptNumber := "R1", transactionId := "TX1", accountReference := "CUST1",
    amount := amount, phone := "254700000000", transactionDate := 0 }

/-- The payment row a successful run of exParams a persists. -/
def exPaymentRow (a : ℚ) : Payment :=
  { id := "p1", mpesaReceiptNumber := "R1", transactionId := "TX1", customerId := "c1",
    amount := a, phone := "254700000000", accountReference := "CUST1",
    paymentType := PaymentType.ACCOUNT, status := PaymentStatus.COMPLETED, transactionDate := 0 }

/-- The two ledger rows the run of exParams a posts under reference T1. -/
def exLedgerRows (a : ℚ) : List LedgerRow :=
  [ { accountCode := "1010", accountName := "M-Pesa Cash", accountType := AccountType.ASSET,
      entryType := EntryType.DEBIT, amount := a, transactionRef := "T1",
      description := "M-Pesa payment: M-Pesa R1", transactionDate := 0,
      paymentId := some "p1", invoiceId := none, customerId := some "c1" },
    { accountCode := "1200", accountName := "Accounts Receivable", accountType := AccountType.ASSET,
      entryType := EntryType.CREDIT, amount := a, transactionRef := "T1",
      description := "Payment applied: M-Pesa R1", transactionDate := 0,
      paymentId := some "p1", invoiceId := none, customerId := some "c1" } ]

/-- The database after the settlement of exParams a against exDB. -/
def exDBDone (a : ℚ) : DB :=
  { customers := [{ id := "c1", customerId := "CUST1", balance := 0 - a }],
    invoices := [], payments := [exPaymentRow a], paymentInvoices := [],
    ledger := exLedgerRows a, posSales := [] }

/-- Scenario A fixture: a single open invoice of 10000, nothing paid. -/
def exInvoiceA : Invoice :=
  { id := "i1", invoiceId := "INV-1", customerId := "c1", amount := 10000,
    amountPaid := 0, balance := 10000, status := InvoiceStatus.UNPAID,
    createdAt := 0, posId := none }

/-- Scenario A after a 3000 allocation: partially paid. -/
def exInvoiceAUpd : Invoice :=
  { id := "i1", invoiceId := "INV-1", customerId := "c1", amount := 10000,
    amountPaid := 3000, balance := 7000, status := InvoiceStatus.PARTIALLY_PAID,
    createdAt := 0, posId := none }

/-- Scenario C fixture: the older invoice, 4000 open. -/
def exInvoiceOld : Invoice :=
  { id := "i2", invoiceId := "INV-2", customerId := "c1", amount := 4000,
    amountPaid := 0, balance := 4000, status := InvoiceStatus.UNPAID,
    createdAt := 10, posId := none }

/-- Scenario C fixture: the newer invoice, 6000 open. -/
def exInvoiceNew : Invoice :=
  { id := "i3", invoiceId := "INV-3", customerId := "c1", amount := 6000,
    amountPaid := 0, balance := 6000, status := InvoiceStatus.UNPAID,
    createdAt := 20, posId := none }

/-- Debit half of a balanced transaction under reference T1. -/
def exRowT1D : LedgerRow :=
  { accountCode := "1010", accountName := "M-Pesa Cash", accountType := AccountType.ASSET,
    entryType := EntryType.DEBIT, amount := 100, transactionRef := "T1",
    description := "d1", transactionDate := 0,
    paymentId := none, invoiceId := none, customerId := none }

/-- Credit half of a balanced transaction under reference T1. -/
def exRowT1C : LedgerRow :=
  { accountCode := "1200", accountName := "Accounts Receivable", accountType := AccountType.ASSET,
    entryType := EntryType.CREDIT, amount := 100, transactionRef := "T1",
    description := "d2", transactionDate := 0,
    paymentId := none, invoiceId := none, customerId := none }

/-- A balanced transaction under reference T1, to be reversed. -/
def exLedgerT1 : List LedgerRow := [exRowT1D, exRowT1C]

/-- A COMPLETED payment of the customer timestamped at the start of the NEXT
day (not within the current calendar day). -/
def exPaymentTomorrow : Payment :=
  { id := "p9", mpesaReceiptNumber := "R9", transactionId := "TX9", customerId := "c1",
    amount := 500000, phone := "254700000000", accountReference := "CUST1",
    paymentType := PaymentType.ACCOUNT, status := PaymentStatus.COMPLETED,
    transactionDate := MS_PER_DAY }

/-- A COMPLETED payment of the customer timestamped within the current day. -/
def exPaymentToday : Payment :=
  { id := "p8", mpesaReceiptNumber := "R8", transactionId := "TX8", customerId := "c1",
    amount := 500000, phone := "254700000000", accountReference := "CUST1",
    paymentType := PaymentType.ACCOUNT, status := PaymentStatus.COMPLETED,
    transactionDate := 100 }

/-- exDB with exPaymentToday already settled, used to trigger the daily limit. -/
def exDBDaily : DB :=
  { customers := [exCustomer], invoices := [], payments := [exPaymentToday],
    paymentInvoices := [], ledger := [], posSales := [] }

/-- Fresh settle parameters for the daily-limit run. -/
def exParamsDaily : SettleParams :=
  { mpesaReceiptNumber := "R2", transactionId := "TX2", accountReference := "CUST1",
    amount := 1, phone := "254700000000", transactionDate := 200 }

/-- Fixture for the atomicity run: exDB extended with the open invoice. -/
def exDBWithInvoice : DB :=
  { customers := [exCustomer], invoices := [exInvoiceA], payments := [],
    paymentInvoices := [], ledger := [], posSales := [] }

/-- Fixture for the resolution witness: a customer whose external code
collides with the id of an invoice owned by another customer. -/
def exCustomerCollide : Customer := { id := "c2", customerId := "i1", balance := 0 }

def exDBCollide : DB :=
  { customers := [exCustomer, exCustomerCollide], invoices := [exInvoiceA], payments := [],
    paymentInvoices := [], ledger := [], posSales := [] }

-- ============================================================================
-- Theorems
-- ============================================================================

/-- C1: the settlement unit is not atomic.  On the concrete database holding
one customer and one open invoice, a settlement of 1000 that fails at the
step marking the payment COMPLETED (after the ledger posting) rolls back the
payment row, the invoice mutation and the customer balance, but the two
ledger rows posted under the generated PAY reference remain: the source calls
AccountingEngine.postPaymentReceived without the tx client, contradicting the
atomicity contract stated at the top of payment-processor.ts. -/
theorem c1_ledger_rows_survive_rollback :
    outcomeOk (processPayment exDBWithInvoice 0 "p1" "PAY-1" (some Step.markCompleted) (exParams 1000)).1 = false
    ∧ (processPayment exDBWithInvoice 0 "p1" "PAY-1" (some Step.markCompleted) (exParams 1000)).2.payments = []
    ∧ (processPayment exDBWithInvoice 0 "p1" "PAY-1" (some Step.markCompleted) (exParams 1000)).2.invoices
        = exDBWithInvoice.invoices
    ∧ (processPayment exDBWithInvoice 0 "p1" "PAY-1" (some Step.markCompleted) (exParams 1000)).2.customers
        = exDBWithInvoice.customers
    ∧ ((processPayment exDBWithInvoice 0 "p1" "PAY-1" (some Step.markCompleted) (exParams 1000)).2.ledger.filter
        (fun e => e.transactionRef == "PAY-1")).length = 2 := by
  simp only [exDBWithInvoice, exCustomer, exInvoiceA, exParams]
  simp [processPayment, identifyPaymentTarget, validatePayment, allocatePayment, allocLoop,
    sortInvoices, List.insertionSort, List.orderedInsert, allocCandidate, applyInvoiceUpdates,
    updatePOSSales, postPaymentReceived, postTransaction, totalDebits, totalCredits, toLedgerRow,
    outcomeOk, List.find?, invoiceMatches, customerMatches]
  norm_num [inf_eq_min, min_def]

/-- C9 counterexample: processPayment does not reject a non-positive amount.
A zero-amount notification against the customer account settles successfully
and persists a COMPLETED payment whose amount is 0, refuting the claim that
no payment with non-positive amount ever exists. -/
theorem c9_zero_amount_payment_persisted :
    outcomeOk (processPayment exDB 0 "p1" "T1" none (exParams 0)).1 = true
    ∧ ((processPayment exDB 0 "p1" "T1" none (exParams 0)).2.payments.filter
        (fun q => decide (q.amount ≤ 0) && decide (q.status = PaymentStatus.COMPLETED))).length = 1 := by
  simp only [exDB, exCustomer, exParams]
  simp [processPayment, identifyPaymentTarget, validatePayment, allocatePayment, allocLoop,
    sortInvoices, List.insertionSort, List.orderedInsert, allocCandidate, applyInvoiceUpdates,
    updatePOSSales, postPaymentReceived, postTransaction, totalDebits, totalCredits, toLedgerRow,
    outcomeOk, List.find?, invoiceMatches, customerMatches]
  norm_num [inf_eq_min, min_def]

/-- The ledger after reversing T1 into R1 over exLedgerT1. -/
def exLedgerT1R1 : List LedgerRow :=
  exLedgerT1 ++
    [ { accountCode := "1010", accountName := "M-Pesa Cash", accountType := AccountType.ASSET,
        entryType := EntryType.CREDIT, amount := 100, transactionRef := "R1",
        description := "REVERSAL: fix (Original: T1)", transactionDate := 1,
        paymentId := none, invoiceId := none, customerId := none },
      { accountCode := "1200", accountName := "Accounts Receivable", accountType := AccountType.ASSET,
        entryType := EntryType.DEBIT, amount := 100, transactionRef := "R1",
        description := "REVERSAL: fix (Original: T1)", transactionDate := 1,
        paymentId := none, invoiceId := none, customerId := none } ]

theorem reverse_exLedgerT1_step1 :
    reverseTransaction exLedgerT1 "T1" "R1" 1 "fix" = Except.ok exLedgerT1R1 := by
  simp only [exLedgerT1, exLedgerT1R1, exRowT1D, exRowT1C]
  simp [reverseTransaction, reversalEntryOf, postTransaction, totalDebits, totalCredits,
    toLedgerRow, List.filter_cons]

theorem reverse_exLedgerT1_step2 :
    exceptOk (reverseTransaction exLedgerT1R1 "R1" "R2" 2 "again") = true := by
  simp only [exLedgerT1R1, exLedgerT1, exRowT1D, exRowT1C]
  simp [reverseTransaction, reversalEntryOf, postTransaction, totalDebits, totalCredits,
    toLedgerRow, exceptOk, List.filter_cons]
  norm_num

/-- C6 counterexample: reversal is not rejected the second time.  After
reversing the balanced transaction T1 into R1, ledger rows DO exist under R1,
and reversing R1 again succeeds instead of failing with a not-found error. -/
theorem c6_second_reversal_succeeds :
    exceptOk (reverseTransaction exLedgerT1 "T1" "R1" 1 "fix") = true
    ∧ exceptOk ((reverseTransaction exLedgerT1 "T1" "R1" 1 "fix").bind
        (fun l1 => reverseTransaction l1 "R1" "R2" 2 "again")) = true := by
  rw [reverse_exLedgerT1_step1]
  exact ⟨rfl, reverse_exLedgerT1_step2⟩

/-- C7 counterexample: the daily window of validatePayment has no upper
bound.  With a COMPLETED payment of 500000 timestamped at the start of the
next day, a fresh amount of 1 is rejected by the code although the limit
predicate of the claim (payments within the current calendar day) is not
violated, so the stated equivalence fails. -/
theorem c7_future_dated_payment_counted :
    exceptOk (validatePayment [exPaymentTomorrow] "c1" 1 0) = false
    ∧ ¬ specLimitViolation [exPaymentTomorrow] "c1" 1 0 := by
  constructor
  · simp [validatePayment, exPaymentTomorrow, MS_PER_DAY, exceptOk, List.filter]
  · simp [specLimitViolation, exPaymentTomorrow, MS_PER_DAY, List.filter]

/-- C5 counterexample: postTransaction does not require a non-empty entries
list.  Posting an empty list succeeds (the totals are both 0, hence balanced)
and writes nothing, refuting the claim that every call with an empty entries
list fails. -/
theorem c5_empty_entries_accepted :
    postTransaction [] "T1" 0 [] none none none = Except.ok [] := by
  norm_num [postTransaction, totalDebits, totalCredits]

/-- C5 (amended): postTransaction fails exactly when the debit total and the
credit total of the entries differ by more than 0.01; emptiness is not
checked (an empty list balances trivially), and on failure the error return
leaves the ledger unwritten. -/
theorem c5_postTransaction_fails_iff_out_of_balance
    (ledger : List LedgerRow) (transactionRef : String) (transactionDate : ℤ)
    (entries : List LedgerEntry) (paymentId invoiceId customerId : Option String) :
    exceptOk (postTransaction ledger transactionRef transactionDate entries paymentId invoiceId customerId) = false
      ↔ |totalDebits entries - totalCredits entries| > 1/100 := by
  unfold postTransaction
  split
  · rename_i h
    exact iff_of_true rfl h
  · rename_i h
    exact iff_of_false (by simp [exceptOk]) h

/-- Evaluation lemma: a settlement of exParams a against exDB (no duplicate,
account-kind target, no open invoices) succeeds whenever the two ceilings are
respected, and produces exactly the state exDBDone a. -/
theorem processPayment_exDB_run (a : ℚ) (h1 : ¬ a > 250000) (h2 : ¬ a > 500000) :
    processPayment exDB 0 "p1" "T1" none (exParams a) =
      (Outcome.ok { id := "p1", customerId := "c1", amount := a, invoicesCleared := [],
                    remainingBalance := 0 - a }, exDBDone a) := by
  simp only [exDB, exCustomer, exParams, exDBDone, exPaymentRow, exLedgerRows]
  simp [processPayment, identifyPaymentTarget, validatePayment, allocatePayment, allocLoop,
    sortInvoices, List.insertionSort, List.orderedInsert, allocCandidate, applyInvoiceUpdates,
    updatePOSSales, postPaymentReceived, postTransaction, totalDebits, totalCredits, toLedgerRow,
    List.find?, invoiceMatches, customerMatches, MPESA_CASH, ACCOUNTS_RECEIVABLE, h1, h2]
  norm_num

/-- C9 (amended): processPayment performs no positivity check.  For every
non-positive amount a, the settlement of exParams a against exDB succeeds and
persists a COMPLETED payment row whose amount is a; positivity of Payment
amounts is only an upstream contract of the transport layer, not enforced by
the processor. -/
theorem c9_nonpositive_amount_settles (a : ℚ) (h : a ≤ 0) :
    processPayment exDB 0 "p1" "T1" none (exParams a) =
      (Outcome.ok { id := "p1", customerId := "c1", amount := a, invoicesCleared := [],
                    remainingBalance := 0 - a }, exDBDone a) :=
  processPayment_exDB_run a (by linarith) (by linarith)

/-- Witness for C9 (amended) at the concrete amount -5. -/
theorem c9_nonpositive_amount_settles_witness :
    processPayment exDB 0 "p1" "T1" none (exParams (-5)) =
      (Outcome.ok { id := "p1", customerId := "c1", amount := -5, invoicesCleared := [],
                    remainingBalance := 0 - (-5) }, exDBDone (-5)) :=
  c9_nonpositive_amount_settles (-5) (by norm_num)

/-- C7 (amended): validatePayment rejects exactly when the amount exceeds
250000 or the amount plus the COMPLETED payments of the customer timestamped
AT OR AFTER the start of the current day (no upper bound on the window)
exceeds 500000; and a validation failure makes processPayment abort with
that error before any mutation, so the database is returned unchanged and no
payment ever reaches COMPLETED status. -/
theorem c7_validate_limits :
    (∀ (payments : List Payment) (cid : String) (amount : ℚ) (startOfToday : ℤ),
        (exceptOk (validatePayment payments cid amount startOfToday) = false ↔
          gteLimitViolation payments cid amount startOfToday))
  ∧ (∀ (db : DB) (s : ℤ) (pid tr : String) (fault : Option Step) (p : SettleParams)
        (c : Customer) (t : PaymentTarget) (e : String),
        db.payments.find? (fun q => q.mpesaReceiptNumber == p.mpesaReceiptNumber) = none →
        identifyPaymentTarget db p.accountReference = Except.ok t →
        t.customer = some c →
        validatePayment db.payments c.id p.amount s = Except.error e →
        processPayment db s pid tr fault p = (Outcome.err e, db)) := by
  constructor
  · intro payments cid amount s
    simp only [validatePayment, gteLimitViolation]
    split
    · rename_i h
      exact iff_of_true rfl (Or.inl h)
    · rename_i h
      split
      · rename_i h2
        exact iff_of_true rfl (Or.inr h2)
      · rename_i h2
        exact iff_of_false (by simp [exceptOk]) (by rw [not_or]; exact ⟨h, h2⟩)
  · intro db s pid tr fault p c t e hfind hident hcust hval
    simp only [processPayment, hfind, hident, hcust, hval]

/-- Witness for C7 (amended): with a COMPLETED payment of 500000 already
timestamped today, a fresh settlement of 1 aborts with the daily-limit error
and the database is returned unchanged. -/
theorem c7_validate_limits_witness :
    processPayment exDBDaily 0 "p1" "T9" none exParamsDaily
      = (Outcome.err "Daily limit exceeded", exDBDaily) :=
  c7_validate_limits.2 exDBDaily 0 "p1" "T9" none exParamsDaily exCustomer
    { customer := some exCustomer, invoice := none, paymentType := PaymentType.ACCOUNT }
    "Daily limit exceeded" rfl rfl rfl
    (by simp [validatePayment, exDBDaily, exPaymentToday, exCustomer, exParamsDaily, List.filter_cons])

/-- C8: resolution tries invoices first.  When an invoice matches the account
reference (by code or id) and its owner exists, the result is that invoice
with its owning customer and kind INVOICE, regardless of any customer whose
identifiers collide with the reference; when no invoice matches but a
customer does, the result is that customer with no invoice and kind ACCOUNT;
when neither matches, resolution fails. -/
theorem c8_invoice_first_resolution (db : DB) (r : String) :
    (∀ inv c, db.invoices.find? (invoiceMatches r) = some inv →
        db.customers.find? (fun x => x.id == inv.customerId) = some c →
        identifyPaymentTarget db r
          = Except.ok { customer := some c, invoice := some inv, paymentType := PaymentType.INVOICE })
  ∧ (∀ c, db.invoices.find? (invoiceMatches r) = none →
        db.customers.find? (customerMatches r) = some c →
        identifyPaymentTarget db r
          = Except.ok { customer := some c, invoice := none, paymentType := PaymentType.ACCOUNT })
  ∧ (db.invoices.find? (invoiceMatches r) = none →
        db.customers.find? (customerMatches r) = none →
        identifyPaymentTarget db r = Except.error ("Invalid account reference: " ++ r)) := by
  refine ⟨?_, ?_, ?_⟩
  · intro inv c h1 h2
    simp only [identifyPaymentTarget, h1, h2]
  · intro c h1 h2
    simp only [identifyPaymentTarget, h1, h2]
  · intro h1 h2
    simp only [identifyPaymentTarget, h1, h2]

/-- Witness for C8: the reference i1 is both the id of an invoice and the
external code of another customer; resolution returns the invoice with its
owner, not the colliding customer. -/
theorem c8_invoice_first_resolution_witness :
    identifyPaymentTarget exDBCollide "i1"
      = Except.ok { customer := some exCustomer, invoice := some exInvoiceA,
                    paymentType := PaymentType.INVOICE } :=
  (c8_invoice_first_resolution exDBCollide "i1").1 exInvoiceA exCustomer rfl rfl

/-- The accounts-receivable debit row of an invoice-issuance posting. -/
def arDebitRow (tr : String) (d : ℤ) (a : ℚ) (cid iid desc : String) : LedgerRow :=
  { accountCode := "1200", accountName := "Accounts Receivable", accountType := AccountType.ASSET,
    entryType := EntryType.DEBIT, amount := a, transactionRef := tr,
    description := "Invoice raised: " ++ desc, transactionDate := d,
    paymentId := none, invoiceId := some iid, customerId := some cid }

/-- The revenue credit row of an invoice-issuance posting. -/
def revenueCreditRow (tr : String) (d : ℤ) (a : ℚ) (cid iid desc : String) : LedgerRow :=
  { accountCode := "4000", accountName := "Sales Revenue", accountType := AccountType.REVENUE,
    entryType := EntryType.CREDIT, amount := a, transactionRef := tr,
    description := "Sales revenue: " ++ desc, transactionDate := d,
    paymentId := none, invoiceId := some iid, customerId := some cid }

/-- The cash debit row of a payment-received posting. -/
def cashDebitRow (tr : String) (d : ℤ) (a : ℚ) (cid pid : String) (iid : Option String)
    (desc : String) : LedgerRow :=
  { accountCode := "1010", accountName := "M-Pesa Cash", accountType := AccountType.ASSET,
    entryType := EntryType.DEBIT, amount := a, transactionRef := tr,
    description := "M-Pesa payment: " ++ desc, transactionDate := d,
    paymentId := some pid, invoiceId := iid, customerId := some cid }

/-- The accounts-receivable credit row of a payment-received posting. -/
def arCreditRow (tr : String) (d : ℤ) (a : ℚ) (cid pid : String) (iid : Option String)
    (desc : String) : LedgerRow :=
  { accountCode := "1200", accountName := "Accounts Receivable", accountType := AccountType.ASSET,
    entryType := EntryType.CREDIT, amount := a, transactionRef := tr,
    description := "Payment applied: " ++ desc, transactionDate := d,
    paymentId := some pid, invoiceId := iid, customerId := some cid }

/-- C10: for a customer with no prior ledger entries, posting the invoice
issuance of a positive amount a and then the payment received for a leaves
the derived customer balance at exactly 0: both postings succeed (each pair
balances exactly) and the accounts-receivable rows of the customer carry one
debit of a and one credit of a. -/
theorem c10_invoice_then_payment_nets_zero
    (ledger : List LedgerRow) (cid iid pid tr1 tr2 desc1 desc2 : String)
    (invoiceIds : List String) (d1 d2 : ℤ) (a : ℚ)
    (ha : 0 < a)
    (hclean : ∀ e ∈ ledger, e.customerId ≠ some cid) :
    postInvoiceCreated ledger tr1 a cid iid d1 desc1
        = Except.ok (ledger ++ [arDebitRow tr1 d1 a cid iid desc1, revenueCreditRow tr1 d1 a cid iid desc1])
    ∧ postPaymentReceived
          (ledger ++ [arDebitRow tr1 d1 a cid iid desc1, revenueCreditRow tr1 d1 a cid iid desc1])
          tr2 a cid pid invoiceIds d2 desc2
        = Except.ok ((ledger ++ [arDebitRow tr1 d1 a cid iid desc1, revenueCreditRow tr1 d1 a cid iid desc1])
            ++ [cashDebitRow tr2 d2 a cid pid invoiceIds.head? desc2,
                arCreditRow tr2 d2 a cid pid invoiceIds.head? desc2])
    ∧ getCustomerBalance
          ((ledger ++ [arDebitRow tr1 d1 a cid iid desc1, revenueCreditRow tr1 d1 a cid iid desc1])
            ++ [cashDebitRow tr2 d2 a cid pid invoiceIds.head? desc2,
                arCreditRow tr2 d2 a cid pid invoiceIds.head? desc2]) cid = 0 := by
  have h3 : ¬ ((1 : ℚ)/100 < 0) := by norm_num
  have hfil : ledger.filter
      (fun e => e.accountCode == ACCOUNTS_RECEIVABLE.code && e.customerId == some cid) = [] := by
    rw [List.filter_eq_nil_iff]
    intro e he
    simp [hclean e he]
  refine ⟨?_, ?_, ?_⟩
  · simp [postInvoiceCreated, postTransaction, totalDebits, totalCredits, toLedgerRow, h3,
      ACCOUNTS_RECEIVABLE, SALES_REVENUE, arDebitRow, revenueCreditRow, List.filter_cons]
  · simp [postPaymentReceived, postTransaction, totalDebits, totalCredits, toLedgerRow, h3,
      ACCOUNTS_RECEIVABLE, MPESA_CASH, cashDebitRow, arCreditRow, List.filter_cons]
  · unfold getCustomerBalance
    rw [List.filter_append, List.filter_append, hfil]
    simp [rowDebits, rowCredits, arDebitRow, revenueCreditRow, cashDebitRow, arCreditRow,
      ACCOUNTS_RECEIVABLE, List.filter_cons]

/-- Witness for C10 at a concrete customer, amount 100 and empty ledger. -/
theorem c10_invoice_then_payment_nets_zero_witness :
    postInvoiceCreated [] "T1" 100 "c1" "i1" 0 "inv"
        = Except.ok ([] ++ [arDebitRow "T1" 0 100 "c1" "i1" "inv", revenueCreditRow "T1" 0 100 "c1" "i1" "inv"])
    ∧ postPaymentReceived
          ([] ++ [arDebitRow "T1" 0 100 "c1" "i1" "inv", revenueCreditRow "T1" 0 100 "c1" "i1" "inv"])
          "T2" 100 "c1" "p1" [] 1 "pay"
        = Except.ok (([] ++ [arDebitRow "T1" 0 100 "c1" "i1" "inv", revenueCreditRow "T1" 0 100 "c1" "i1" "inv"])
            ++ [cashDebitRow "T2" 1 100 "c1" "p1" none "pay",
                arCreditRow "T2" 1 100 "c1" "p1" none "pay"])
    ∧ getCustomerBalance
          (([] ++ [arDebitRow "T1" 0 100 "c1" "i1" "inv", revenueCreditRow "T1" 0 100 "c1" "i1" "inv"])
            ++ [cashDebitRow "T2" 1 100 "c1" "p1" none "pay",
                arCreditRow "T2" 1 100 "c1" "p1" none "pay"]) "c1" = 0 :=
  c10_invoice_then_payment_nets_zero [] "c1" "i1" "p1" "T1" "T2" "inv" "pay" [] 0 1 100
    (by norm_num) (by intro e he; simp at he)

/-- The allocation loop preserves arithmetic consistency of every invoice it
returns, for a non-negative remaining amount. -/
theorem allocLoop_consistent (pid : String) :
    ∀ (invs : List Invoice) (r : ℚ), 0 ≤ r → (∀ i ∈ invs, invoiceConsistent i) →
      ∀ j ∈ (allocLoop pid r invs).2, invoiceConsistent j := by
  intro invs
  induction invs with
  | nil =>
    intro r hr h j hj
    simp [allocLoop] at hj
  | cons inv rest ih =>
    intro r hr h j hj
    by_cases hb : r ≤ 0
    · simp only [allocLoop, if_pos hb] at hj
      exact h j hj
    · simp only [allocLoop, if_neg hb, List.mem_cons] at hj
      rcases hj with rfl | hj
      · obtain ⟨hp, hbnn, hsum⟩ := h inv (List.mem_cons_self inv rest)
        have hrpos : 0 < r := lt_of_not_le hb
        have hm0 : 0 ≤ min r inv.balance := le_min (le_of_lt hrpos) hbnn
        have hmb : min r inv.balance ≤ inv.balance := min_le_right r inv.balance
        refine ⟨by simpa using by linarith, ?_, ?_⟩
        · show 0 ≤ inv.amount - (inv.amountPaid + min r inv.balance)
          linarith
        · show inv.amountPaid + min r inv.balance
              + (inv.amount - (inv.amountPaid + min r inv.balance)) = inv.amount
          ring
      · exact ih (r - min r inv.balance) (by
            have := min_le_left r inv.balance
            linarith)
          (fun i hi => h i (List.mem_cons_of_mem inv hi)) j hj

/-- C3: after any allocation, every invoice in the updated table satisfies
amountPaid plus balance equals amount exactly (hence within any tolerance),
with amountPaid and balance non-negative, provided every invoice satisfied
the same consistency before and the payment amount is non-negative. -/
theorem c3_allocation_preserves_invoice_equation
    (table : List Invoice) (pid cid : String) (amount : ℚ) (target : Option String)
    (hinv : ∀ i ∈ table, invoiceConsistent i) (hamt : 0 ≤ amount) :
    ∀ j ∈ applyInvoiceUpdates table (allocatePayment table pid cid amount target).2,
      j.amountPaid + j.balance = j.amount ∧ 0 ≤ j.amountPaid ∧ 0 ≤ j.balance := by
  intro j hj
  simp only [applyInvoiceUpdates, List.mem_map] at hj
  obtain ⟨i, hi, rfl⟩ := hj
  rcases hfind : (allocatePayment table pid cid amount target).2.find? (fun u => u.id == i.id)
    with _ | u
  · simp only [hfind, Option.getD_none]
    obtain ⟨h1, h2, h3⟩ := hinv i hi
    exact ⟨h3, h1, h2⟩
  · simp only [hfind, Option.getD_some]
    have hu : u ∈ (allocLoop pid amount (sortInvoices (table.filter (allocCandidate cid target)))).2 :=
      List.mem_of_find?_eq_some hfind
    have hcand : ∀ i2 ∈ sortInvoices (table.filter (allocCandidate cid target)), invoiceConsistent i2 := by
      intro i2 hi2
      simp only [sortInvoices] at hi2
      rw [List.mem_insertionSort] at hi2
      exact hinv i2 (List.mem_of_mem_filter hi2)
    have := allocLoop_consistent pid (sortInvoices (table.filter (allocCandidate cid target)))
      amount hamt hcand u hu
    exact ⟨this.2.2, this.1, this.2.1⟩

/-- Witness for C3: Scenario A, one open invoice of 10000 and a payment of
3000; the updated invoice carries amountPaid 3000 and balance 7000, which
satisfy the equation of the claim. -/
theorem c3_allocation_preserves_invoice_equation_witness :
    exInvoiceAUpd.amountPaid + exInvoiceAUpd.balance = exInvoiceAUpd.amount
      ∧ 0 ≤ exInvoiceAUpd.amountPaid ∧ 0 ≤ exInvoiceAUpd.balance :=
  c3_allocation_preserves_invoice_equation [exInvoiceA] "p1" "c1" 3000 none
    (by
      intro i hi
      simp only [List.mem_singleton] at hi
      subst hi
      refine ⟨by norm_num [exInvoiceA], by norm_num [exInvoiceA], by norm_num [exInvoiceA]⟩)
    (by norm_num)
    exInvoiceAUpd
    (by
      norm_num [applyInvoiceUpdates, allocatePayment, allocLoop, sortInvoices,
        List.insertionSort, List.orderedInsert, allocCandidate, exInvoiceA, exInvoiceAUpd,
        List.find?, inf_eq_min, min_def])

/-- The candidate predicate of the source equals that of the spec whenever
the target is not the empty string (the only divergence is the JS truthiness
of an empty-string target). -/
theorem allocCandidate_eq_specCandidate (cid : String) (target : Option String)
    (htgt : target ≠ some "") (i : Invoice) :
    allocCandidate cid target i = specCandidate cid target i := by
  cases target with
  | none => rfl
  | some t =>
    have ht : ¬ t = "" := by
      intro h
      exact htgt (by rw [h])
    simp only [allocCandidate, specCandidate, if_neg ht]

/-- The allocation loop of the source and the loop described by the spec
agree on every list of consistent open invoices and non-negative remaining
amount: the break test (remaining not positive vs remaining equal to zero),
the balance update (face value minus new amountPaid vs old balance minus
applied) and the status rule (cumulative amountPaid positive vs amount
applied positive) all coincide under these hypotheses. -/
theorem allocLoop_eq_specLoop (pid : String) :
    ∀ (invs : List Invoice) (r : ℚ), 0 ≤ r →
      (∀ i ∈ invs, allocReady i
          ∧ (i.status = InvoiceStatus.UNPAID ∨ i.status = InvoiceStatus.PARTIALLY_PAID)) →
      allocLoop pid r invs = specAllocLoop pid r invs := by
  intro invs
  induction invs with
  | nil =>
    intro r hr h
    rfl
  | cons inv rest ih =>
    intro r hr h
    by_cases hb : r ≤ 0
    · have hr0 : r = 0 := le_antisymm hb hr
      simp only [allocLoop, specAllocLoop, if_pos hb, if_pos hr0]
    · have hrpos : 0 < r := lt_of_not_le hb
      have hne : ¬ r = 0 := ne_of_gt hrpos
      obtain ⟨⟨⟨hp, hbnn, hsum⟩, hupz⟩, hopen⟩ := h inv (List.mem_cons_self inv rest)
      have hm0 : 0 ≤ min r inv.balance := le_min (le_of_lt hrpos) hbnn
      have hrest : allocLoop pid (r - min r inv.balance) rest
          = specAllocLoop pid (r - min r inv.balance) rest :=
        ih (r - min r inv.balance)
          (by
            have := min_le_left r inv.balance
            linarith)
          (fun i hi => h i (List.mem_cons_of_mem inv hi))
      have hbal2 : inv.amount - (inv.amountPaid + min r inv.balance)
          = inv.balance - min r inv.balance := by
        linarith
      have hstat :
          (if inv.balance - min r inv.balance ≤ 1/100 then InvoiceStatus.PAID
           else if inv.amountPaid + min r inv.balance > 0 then InvoiceStatus.PARTIALLY_PAID
           else inv.status)
        = (if inv.balance - min r inv.balance ≤ 1/100 then InvoiceStatus.PAID
           else if min r inv.balance > 0 then InvoiceStatus.PARTIALLY_PAID
           else inv.status) := by
        by_cases hc : inv.balance - min r inv.balance ≤ 1/100
        · rw [if_pos hc, if_pos hc]
        · rw [if_neg hc, if_neg hc]
          by_cases hA : 0 < min r inv.balance
          · rw [if_pos (by linarith : (0:ℚ) < inv.amountPaid + min r inv.balance), if_pos hA]
          · have hA0 : min r inv.balance = 0 := le_antisymm (not_lt.mp hA) hm0
            rw [hA0]
            by_cases hpz : 0 < inv.amountPaid
            · have hst : inv.status = InvoiceStatus.PARTIALLY_PAID := by
                rcases hopen with h1 | h1
                · exact absurd (hupz h1) (by
                    intro h0
                    rw [h0] at hpz
                    exact lt_irrefl 0 hpz)
                · exact h1
              rw [if_pos (by simpa using hpz), if_neg (lt_irrefl (0:ℚ)), hst]
            · rw [if_neg (by simpa using hpz), if_neg (lt_irrefl (0:ℚ))]
      simp only [allocLoop, specAllocLoop, if_neg hb, if_neg hne]
      rw [hrest, hbal2, hstat]

/-- C4: allocatePayment implements the allocation the spec describes: the
candidate set is the customer's open invoices (restricted to the target
invoice when one is supplied), walked in ascending creation-time order,
applying the minimum of the remaining amount and the invoice balance to
each, setting the status to PAID when the resulting balance is at most 0.01
and otherwise to PARTIALLY_PAID when an amount has been applied; it stops
when the remaining amount reaches zero or the invoices run out, and never
fails on a leftover amount (the total function returns the allocations, the
leftover being folded into the customer balance by the caller). -/
theorem c4_allocatePayment_matches_spec
    (table : List Invoice) (pid cid : String) (amount : ℚ) (target : Option String)
    (hamt : 0 ≤ amount)
    (hready : ∀ i ∈ table, allocReady i)
    (htgt : target ≠ some "") :
    allocatePayment table pid cid amount target = specAllocate table pid cid amount target := by
  unfold allocatePayment specAllocate
  have hcand : table.filter (allocCandidate cid target) = table.filter (specCandidate cid target) :=
    List.filter_congr (fun i hi => by rw [allocCandidate_eq_specCandidate cid target htgt i])
  rw [hcand]
  refine allocLoop_eq_specLoop pid _ amount hamt ?_
  intro i hi
  simp only [sortInvoices] at hi
  rw [List.mem_insertionSort] at hi
  refine ⟨hready i (List.mem_of_mem_filter hi), ?_⟩
  have hpred := List.of_mem_filter hi
  simp only [specCandidate, Bool.and_eq_true, Bool.or_eq_true, decide_eq_true_eq] at hpred
  exact hpred.1.2

/-- Witness for C4: Scenario C, two open invoices of 4000 (older) and 6000
(newer) given in reverse creation order, and a payment of 5000 against the
customer account. -/
theorem c4_allocatePayment_matches_spec_witness :
    allocatePayment [exInvoiceNew, exInvoiceOld] "p1" "c1" 5000 none
      = specAllocate [exInvoiceNew, exInvoiceOld] "p1" "c1" 5000 none :=
  c4_allocatePayment_matches_spec [exInvoiceNew, exInvoiceOld] "p1" "c1" 5000 none
    (by norm_num)
    (by
      intro i hi
      simp only [List.mem_cons, List.not_mem_nil, or_false] at hi
      rcases hi with rfl | rfl
      · exact ⟨⟨by norm_num [exInvoiceNew], by norm_num [exInvoiceNew],
          by norm_num [exInvoiceNew]⟩, fun _ => by norm_num [exInvoiceNew]⟩
      · exact ⟨⟨by norm_num [exInvoiceOld], by norm_num [exInvoiceOld],
          by norm_num [exInvoiceOld]⟩, fun _ => by norm_num [exInvoiceOld]⟩)
    (by simp)

/-- Flipping the entries of a list of rows swaps the debit total with the
credit total. -/
theorem totalDebits_map_reversal (s oref : String) (l : List LedgerRow) :
    totalDebits (l.map (reversalEntryOf s oref)) = rowCredits l := by
  simp only [totalDebits, rowCredits]
  induction l with
  | nil => rfl
  | cons e t ih =>
    cases he : e.entryType with
    | DEBIT => simpa [reversalEntryOf, he, List.filter_cons] using ih
    | CREDIT => simpa [reversalEntryOf, he, List.filter_cons] using ih

theorem totalCredits_map_reversal (s oref : String) (l : List LedgerRow) :
    totalCredits (l.map (reversalEntryOf s oref)) = rowDebits l := by
  simp only [totalCredits, rowDebits]
  induction l with
  | nil => rfl
  | cons e t ih =>
    cases he : e.entryType with
    | DEBIT => simpa [reversalEntryOf, he, List.filter_cons] using ih
    | CREDIT => simpa [reversalEntryOf, he, List.filter_cons] using ih

theorem rowDebits_map_reversalRow (nr : String) (d : ℤ) (s oref : String)
    (pi ii ci : Option String) (l : List LedgerRow) :
    rowDebits (l.map (reversalRow nr d s oref pi ii ci)) = rowCredits l := by
  simp only [rowDebits, rowCredits]
  induction l with
  | nil => rfl
  | cons e t ih =>
    cases he : e.entryType with
    | DEBIT => simpa [reversalRow, toLedgerRow, reversalEntryOf, he, List.filter_cons] using ih
    | CREDIT => simpa [reversalRow, toLedgerRow, reversalEntryOf, he, List.filter_cons] using ih

theorem rowCredits_map_reversalRow (nr : String) (d : ℤ) (s oref : String)
    (pi ii ci : Option String) (l : List LedgerRow) :
    rowCredits (l.map (reversalRow nr d s oref pi ii ci)) = rowDebits l := by
  simp only [rowCredits, rowDebits]
  induction l with
  | nil => rfl
  | cons e t ih =>
    cases he : e.entryType with
    | DEBIT => simpa [reversalRow, toLedgerRow, reversalEntryOf, he, List.filter_cons] using ih
    | CREDIT => simpa [reversalRow, toLedgerRow, reversalEntryOf, he, List.filter_cons] using ih

/-- Every row written by a reversal carries the reversal reference. -/
theorem filter_ref_map_reversalRow (nr : String) (d : ℤ) (s oref : String)
    (pi ii ci : Option String) (l : List LedgerRow) :
    (l.map (reversalRow nr d s oref pi ii ci)).filter (fun e => e.transactionRef == nr)
      = l.map (reversalRow nr d s oref pi ii ci) := by
  induction l with
  | nil => rfl
  | cons e t ih => simp [reversalRow, toLedgerRow, reversalEntryOf, List.filter_cons, ih]

/-- A reversal whose original reference holds a balanced, non-empty group of
rows succeeds and appends the side-flipped rows under the new reference. -/
theorem reverseTransaction_ok (ledger : List LedgerRow) (oref nref : String) (d : ℤ) (s : String)
    (e0 : LedgerRow) (rest : List LedgerRow)
    (hfilter : ledger.filter (fun e => e.transactionRef == oref) = e0 :: rest)
    (hbal : |rowDebits (e0 :: rest) - rowCredits (e0 :: rest)| ≤ 1/100) :
    reverseTransaction ledger oref nref d s
      = Except.ok (ledger ++ (e0 :: rest).map
          (reversalRow nref d s oref e0.paymentId e0.invoiceId e0.customerId)) := by
  unfold reverseTransaction
  rw [hfilter]
  show postTransaction ledger nref d ((e0 :: rest).map (reversalEntryOf s oref))
      e0.paymentId e0.invoiceId e0.customerId = _
  unfold postTransaction
  rw [totalDebits_map_reversal, totalCredits_map_reversal]
  rw [if_neg (by rw [abs_sub_comm]; exact not_lt.mpr hbal)]
  rw [List.map_map]
  rfl

/-- C6 (amended): reverseTransaction reads the rows under the original
reference, fails with the not-found error exactly when there are none, and
otherwise re-emits them under the new reference with DEBIT and CREDIT
flipped and the description replaced by a text marked as a reversal of the
original reference; the rows DO live under the reversal reference, so
reversing a reversal succeeds again (rather than failing with not-found),
as long as the group balances and the reversal reference was fresh. -/
theorem c6_reverse_behavior (ledger : List LedgerRow) (origRef newRef : String)
    (date : ℤ) (reason : String) :
    (ledger.filter (fun e => e.transactionRef == origRef) = [] →
        reverseTransaction ledger origRef newRef date reason
          = Except.error ("Transaction not found: " ++ origRef))
  ∧ ∀ e0 rest,
      ledger.filter (fun e => e.transactionRef == origRef) = e0 :: rest →
      |rowDebits (e0 :: rest) - rowCredits (e0 :: rest)| ≤ 1/100 →
      ledger.filter (fun e => e.transactionRef == newRef) = [] →
      reverseTransaction ledger origRef newRef date reason
          = Except.ok (ledger ++ (e0 :: rest).map
              (reversalRow newRef date reason origRef e0.paymentId e0.invoiceId e0.customerId))
        ∧ ∀ (ref2 : String) (d2 : ℤ) (r2 : String), ∃ l2,
            reverseTransaction
              (ledger ++ (e0 :: rest).map
                (reversalRow newRef date reason origRef e0.paymentId e0.invoiceId e0.customerId))
              newRef ref2 d2 r2 = Except.ok l2 := by
  constructor
  · intro h
    unfold reverseTransaction
    rw [h]
  · intro e0 rest hfilter hbal hfresh
    refine ⟨reverseTransaction_ok ledger origRef newRef date reason e0 rest hfilter hbal, ?_⟩
    intro ref2 d2 r2
    have hfil2 : (ledger ++ (e0 :: rest).map
          (reversalRow newRef date reason origRef e0.paymentId e0.invoiceId e0.customerId)).filter
            (fun e => e.transactionRef == newRef)
        = reversalRow newRef date reason origRef e0.paymentId e0.invoiceId e0.customerId e0
            :: rest.map (reversalRow newRef date reason origRef e0.paymentId e0.invoiceId e0.customerId) := by
      rw [List.filter_append, hfresh, filter_ref_map_reversalRow]
      simp
    have hbal2 : |rowDebits
          (reversalRow newRef date reason origRef e0.paymentId e0.invoiceId e0.customerId e0
            :: rest.map (reversalRow newRef date reason origRef e0.paymentId e0.invoiceId e0.customerId))
        - rowCredits
          (reversalRow newRef date reason origRef e0.paymentId e0.invoiceId e0.customerId e0
            :: rest.map (reversalRow newRef date reason origRef e0.paymentId e0.invoiceId e0.customerId))|
        ≤ 1/100 := by
      rw [← List.map_cons, rowDebits_map_reversalRow, rowCredits_map_reversalRow, abs_sub_comm]
      exact hbal
    exact ⟨_, reverseTransaction_ok _ newRef ref2 d2 r2 _ _ hfil2 hbal2⟩

/-- Witness for C6 (amended): reversing the concrete balanced transaction T1
into R1 appends its two side-flipped rows under R1. -/
theorem c6_reverse_behavior_witness :
    reverseTransaction exLedgerT1 "T1" "R1" 1 "fix"
      = Except.ok (exLedgerT1 ++ [exRowT1D, exRowT1C].map
          (reversalRow "R1" 1 "fix" "T1" none none none)) :=
  ((c6_reverse_behavior exLedgerT1 "T1" "R1" 1 "fix").2 exRowT1D [exRowT1C]
    rfl
    (by simp [rowDebits, rowCredits, exRowT1D, exRowT1C, List.filter_cons])
    rfl).1

/-- Dissection of a successful fresh settlement: the payments table of the
resulting database is the old table (the new-payment status update mapped
over it) followed by one new row carrying the receipt number of the
notification. -/
theorem processPayment_ok_payments
    (db : DB) (s : ℤ) (pid tr : String) (p : SettleParams) (r : PaymentResult) (db1 : DB)
    (h0 : db.payments.find? (fun q => q.mpesaReceiptNumber == p.mpesaReceiptNumber) = none)
    (h1 : processPayment db s pid tr none p = (Outcome.ok r, db1)) :
    ∃ pay1 : Payment, pay1.mpesaReceiptNumber = p.mpesaReceiptNumber
      ∧ db1.payments = (db.payments
          ++ [pay1]).map (fun q => if q.id = pid then { q with status := PaymentStatus.COMPLETED } else q) := by
  simp only [processPayment, h0] at h1
  cases hI : identifyPaymentTarget db p.accountReference with
  | error e =>
    rw [hI] at h1
    simp at h1
  | ok t =>
    rw [hI] at h1
    simp only [] at h1
    cases hc : t.customer with
    | none =>
      rw [hc] at h1
      simp at h1
    | some customer =>
      rw [hc] at h1
      simp only [] at h1
      cases hv : validatePayment db.payments customer.id p.amount s with
      | error e =>
        rw [hv] at h1
        simp at h1
      | ok u =>
        rw [hv] at h1
        simp only [reduceCtorEq, if_false] at h1
        cases hL : postPaymentReceived db.ledger tr p.amount customer.id pid
            ((allocatePayment db.invoices pid customer.id p.amount
                (Option.map (fun i => i.id) t.invoice)).1.map (fun a => a.invoiceId))
            p.transactionDate ("M-Pesa " ++ p.mpesaReceiptNumber) with
        | error e =>
          rw [hL] at h1
          simp at h1
        | ok newLedger =>
          rw [hL] at h1
          simp only [] at h1
          have h2 := congrArg (fun x : Outcome × DB => x.2.payments) h1
          exact ⟨{ id := pid, mpesaReceiptNumber := p.mpesaReceiptNumber,
                   transactionId := p.transactionId, customerId := customer.id,
                   amount := p.amount, phone := p.phone,
                   accountReference := p.accountReference, paymentType := t.paymentType,
                   status := PaymentStatus.PENDING, transactionDate := p.transactionDate },
                 rfl, h2.symm⟩

/-- C2: settling the same notification twice.  After a successful first
settlement of a fresh receipt, exactly one payment row carries that receipt
number, and a second processPayment call with the same receipt returns the
stored payment (id, customer and amount of the existing row, no invoices
cleared, remaining balance 0) while leaving the database fully unchanged,
whatever fault may be injected in its transactional part. -/
theorem c2_duplicate_settlement
    (db : DB) (s s2 : ℤ) (pid pid2 tr tr2 : String) (fault2 : Option Step)
    (p : SettleParams) (r : PaymentResult) (db1 : DB)
    (h0 : db.payments.find? (fun q => q.mpesaReceiptNumber == p.mpesaReceiptNumber) = none)
    (h1 : processPayment db s pid tr none p = (Outcome.ok r, db1)) :
    (db1.payments.filter (fun q => q.mpesaReceiptNumber == p.mpesaReceiptNumber)).length = 1
  ∧ ∀ pay, db1.payments.find? (fun q => q.mpesaReceiptNumber == p.mpesaReceiptNumber) = some pay →
      processPayment db1 s2 pid2 tr2 fault2 p
        = (Outcome.ok { id := pay.id, customerId := pay.customerId, amount := pay.amount,
                        invoicesCleared := [], remainingBalance := 0 }, db1) := by
  obtain ⟨pay1, hrec, hpay⟩ := processPayment_ok_payments db s pid tr p r db1 h0 h1
  have hpred : ∀ q ∈ db.payments, (q.mpesaReceiptNumber == p.mpesaReceiptNumber) = false := by
    intro q hq
    have := List.find?_eq_none.mp h0 q hq
    simpa using this
  constructor
  · rw [hpay, List.map_append, List.filter_append]
    have hl : ((db.payments.map
        (fun q => if q.id = pid then { q with status := PaymentStatus.COMPLETED } else q)).filter
          (fun q => q.mpesaReceiptNumber == p.mpesaReceiptNumber)) = [] := by
      rw [List.filter_eq_nil_iff]
      intro x hx
      rcases List.mem_map.mp hx with ⟨q, hq, rfl⟩
      by_cases hid : q.id = pid
      · simp [hid, hpred q hq]
      · simp [hid, hpred q hq]
    rw [hl]
    by_cases hid : pay1.id = pid
    · simp [hid, hrec, List.filter_cons]
    · simp [hid, hrec, List.filter_cons]
  · intro pay hfind
    simp only [processPayment, hfind]

/-- Witness for C2: after settling exParams 50 against exDB, a second call
with the same receipt returns the stored payment and changes nothing. -/
theorem c2_duplicate_settlement_witness :
    processPayment (exDBDone 50) 0 "p2" "T2" none (exParams 50)
      = (Outcome.ok { id := "p1", customerId := "c1", amount := 50,
                      invoicesCleared := [], remainingBalance := 0 }, exDBDone 50) :=
  (c2_duplicate_settlement exDB 0 0 "p1" "p2" "T1" "T2" none (exParams 50)
      { id := "p1", customerId := "c1", amount := 50, invoicesCleared := [],
        remainingBalance := 0 - 50 }
      (exDBDone 50) rfl
      (processPayment_exDB_run 50 (by norm_num) (by norm_num))).2
    (exPaymentRow 50) rfl

end KellyOS
